import Mathlib

/-!
Verification of the smart-heaven-v2 event-mapping and command-dispatch
pipeline (backend design) and of two frontend dashboard components
(light display state, door/lock interlock).

The backend core (PayloadNormalizer, IdempotencyGuard, MappingStore,
CommandPublisher, EventPipeline) is described by the repository's design
document `backend/EVENT_SYSTEM_STATUS.md` and by the specification; its
Python implementation files are not part of the repository snapshot, so
those components are modelled from the spec (each such definition says so
in its doc comment).  The frontend components are embedded directly from
`LightControlSH2.tsx` and `DoorControl.tsx`.
-/

namespace SmartHeaven

/-- Canonical Event produced by normalization.  Fields follow the spec's
data model: version tag, device and button identifiers, action, origin,
and the derived `eventId` (filled in by the pipeline). -/
structure Event where
  version : String
  device : String
  button : String
  action : String
  origin : String
  eventId : String := ""
  deriving Repr, DecidableEq

/-- Mapping rule binding a source event pattern to a target action,
following the `mappings` table of the design document: `source_device`,
`source_button` (either may be the wildcard `"*"`), `source_action`
(default `"press"`), `action_type`, `target_type`, `target_id`,
`parameters_json`, `active` (default true), `priority` (default 100). -/
structure Mapping where
  sourceDevice : String
  sourceButton : String
  sourceAction : String := "press"
  actionType : String
  targetType : String
  targetId : String
  parameters : List (String × String) := []
  active : Bool := true
  priority : Int := 100
  deriving Repr, DecidableEq

/-- Modelled from the spec: `Mapping.matches_event` — a mapping applies to
an event when (`sourceDevice == event.device` or `sourceDevice == "*"`)
and (`sourceButton == event.button` or `sourceButton == "*"`) and
`sourceAction == event.action` and `active == true`. -/
def Mapping.matchesEvent (m : Mapping) (e : Event) : Bool :=
  (m.sourceDevice == e.device || m.sourceDevice == "*") &&
  (m.sourceButton == e.button || m.sourceButton == "*") &&
  (m.sourceAction == e.action) &&
  m.active

/-- Rank of a source field for tie-breaking: exact fields (rank 0) sort
before the wildcard `"*"` (rank 1). -/
def wildRank (s : String) : Nat := if s == "*" then 1 else 0

/-- Modelled from the spec: the MappingStore resolution order — ascending
`priority`; at equal priority exact-field matches before wildcard matches,
device exactness compared before button exactness. -/
def mappingBefore (a b : Mapping) : Prop :=
  a.priority < b.priority ∨
    (a.priority = b.priority ∧
      (wildRank a.sourceDevice < wildRank b.sourceDevice ∨
        (wildRank a.sourceDevice = wildRank b.sourceDevice ∧
          wildRank a.sourceButton ≤ wildRank b.sourceButton)))

instance instDecidableMappingBefore : DecidableRel mappingBefore := fun a b =>
  inferInstanceAs (Decidable (a.priority < b.priority ∨
    (a.priority = b.priority ∧
      (wildRank a.sourceDevice < wildRank b.sourceDevice ∨
        (wildRank a.sourceDevice = wildRank b.sourceDevice ∧
          wildRank a.sourceButton ≤ wildRank b.sourceButton)))))

/-- Modelled from the spec: `MappingStore.findMatches(event)` (the design
document's `find_matching_mappings`) — keep the mappings that match the
event, sorted by the resolution order `mappingBefore`. -/
def findMatches (store : List Mapping) (e : Event) : List Mapping :=
  List.insertionSort mappingBefore (store.filter (fun m => m.matchesEvent e))

/-- The demo exact mapping of the design document: Base_D button S1
toggles L_Cozinha. -/
def mExact : Mapping :=
  { sourceDevice := "Base_D", sourceButton := "S1", sourceAction := "press",
    actionType := "toggle_light", targetType := "light", targetId := "L_Cozinha" }

/-- A fully wildcarded mapping at the same (default) priority as `mExact`. -/
def mWild : Mapping :=
  { sourceDevice := "*", sourceButton := "*", sourceAction := "press",
    actionType := "send_alert", targetType := "notification", targetId := "admin_telegram" }

/-- The design document's scene mapping: Base_A button S2 activates the
movie-mode scene with a `dim_level` parameter. -/
def mScene : Mapping :=
  { sourceDevice := "Base_A", sourceButton := "S2", sourceAction := "press",
    actionType := "activate_scene", targetType := "scene", targetId := "movie_mode",
    parameters := [("dim_level", "20")] }

/-- The demo event: a press of button S1 on device Base_D. -/
def evBaseD : Event :=
  { version := "1.0", device := "Base_D", button := "S1", action := "press",
    origin := "Base_D" }

/-- Raw decoded wire payload: an untyped key-value structure. -/
abbrev RawPayload := List (String × String)

/-- Short-window deduplication cache: event-id to last-seen timestamp,
with the window length (default 3 seconds). -/
structure Guard where
  window : Nat := 3
  cache : List (String × Nat) := []
  deriving Repr, DecidableEq

/-- Modelled from the spec: `IdempotencyGuard.shouldProcess(eventId, now)`
— returns true and records `(eventId, now)` if `eventId` is absent from
the recent-window cache or its recorded time is older than the window;
returns false (cache untouched) otherwise.  Lazy pruning / max-entry
eviction is an optional bound the spec leaves open and is elided here. -/
def Guard.shouldProcess (g : Guard) (eventId : String) (now : Nat) : Bool × Guard :=
  match g.cache.lookup eventId with
  | none => (true, { g with cache := (eventId, now) :: g.cache })
  | some t =>
      if t + g.window < now then
        (true, { g with cache := (eventId, now) :: g.cache })
      else
        (false, g)

/-- Normalization failure: the payload matches neither accepted shape. -/
inductive NormalizeError
  | unrecognizedPayload
  deriving Repr, DecidableEq

/-- A `version` field (wire key `"v"`) is present and recognized. -/
def recognizedVersion (p : RawPayload) : Bool :=
  match p.lookup "v" with
  | some v => v == "1.0"
  | none => false

/-- The payload has the canonical-versioned shape: recognized version plus
the required identity fields `device` and `action`. -/
def versionedShape (p : RawPayload) : Bool :=
  recognizedVersion p && (p.lookup "device").isSome && (p.lookup "action").isSome

/-- The payload has the legacy shape: no recognized version, but the bare
room/state identity fields `comodo` and `state` are present. -/
def legacyShape (p : RawPayload) : Bool :=
  !recognizedVersion p && (p.lookup "comodo").isSome && (p.lookup "state").isSome

/-- The device identifier derived from a legacy `comodo` field. -/
def deviceFromComodo (room : String) : String := room

/-- Modelled from the spec: PayloadNormalizer — if a recognized `version`
field is present, treat as canonical-versioned; otherwise treat as legacy
`{comodo, state}` shape and synthesize an Event with
`action = "state-report"`, origin from the transport hint if available,
else `"legacy"`.  Fails with `unrecognizedPayload` when the required
identity fields of the selected shape are missing. -/
def normalize (p : RawPayload) (originHint : Option String) :
    Except NormalizeError Event :=
  if recognizedVersion p then
    match p.lookup "device", p.lookup "action" with
    | some d, some a =>
        .ok { version := (p.lookup "v").getD "1.0", device := d,
              button := (p.lookup "button").getD "", action := a,
              origin := (p.lookup "origin").getD (originHint.getD d) }
    | _, _ => .error .unrecognizedPayload
  else
    match p.lookup "comodo", p.lookup "state" with
    | some room, some _ =>
        .ok { version := "legacy", device := deviceFromComodo room, button := "",
              action := "state-report", origin := originHint.getD "legacy" }
    | _, _ => .error .unrecognizedPayload

/-- Outbound Command: target, command type, payload bag, origin marker and
the id of the triggering event. -/
structure Command where
  targetId : String
  commandType : String
  payload : List (String × String)
  origin : String
  triggeredBy : Option String
  deriving Repr, DecidableEq

/-- Modelled from the spec: `CommandPublisher.dispatch(mapping, event)`
(the design document's `publish_command`) — builds a Command with
`origin = "server"`, `triggeredBy` the triggering event's id, and the
mapping's `parameters` merged into the command payload. -/
def dispatch (m : Mapping) (e : Event) : Command :=
  { targetId := m.targetId
    commandType := m.actionType
    payload := ("comodo", m.targetId) :: ("command", m.actionType) :: m.parameters
    origin := "server"
    triggeredBy := some e.eventId }

/-- Modelled from the spec: coarse time bucket width (in seconds) used by
the derived event id; the design document's example id truncates the
device timestamp to the minute. -/
def bucketSeconds : Nat := 60

/-- Modelled from the spec: the derived `eventId` — a deterministic
composite of device + button + action + coarse time bucket. -/
def deriveEventId (e : Event) (now : Nat) : String :=
  e.device ++ "_" ++ e.button ++ "_" ++ e.action ++ "_" ++ toString (now / bucketSeconds)

/-- Attach the derived event id to a normalized event. -/
def withId (e : Event) (now : Nat) : Event := { e with eventId := deriveEventId e now }

/-- Reason an event is dropped by the pipeline. -/
inductive DropReason
  | unrecognizedPayload
  | duplicate
  deriving Repr, DecidableEq

/-- The structured result of a completed pipeline run. -/
structure EventResult where
  eventId : String
  matchedCount : Nat
  dispatchedCount : Nat
  failures : List Command
  deriving Repr, DecidableEq

/-- Terminal outcome of one `processEvent` call. -/
inductive Outcome
  | dropped (reason : DropReason)
  | completed (result : EventResult)
  deriving Repr, DecidableEq

/-- What one `processEvent` call produced: its terminal outcome, the
canonical Events appended to the log, the Commands handed to the
transport, and the updated idempotency guard. -/
structure PipelineOutput where
  outcome : Outcome
  newEvents : List Event
  published : List Command
  guard : Guard
  deriving Repr, DecidableEq

/-- Modelled from the spec: `EventPipeline.processEvent` (the design
document's `EventService.process_event`) — normalize, derive the event
id, check idempotency, persist the event, resolve the matches, dispatch
every matched mapping in the resolved order (a publish failure is
recorded and does not stop the remaining dispatches), and return the
structured result.  The transport-send collaborator is the `publish`
oracle: true means that command's publish succeeded. -/
def processEvent (store : List Mapping) (g : Guard) (publish : Command → Bool)
    (raw : RawPayload) (originHint : Option String) (now : Nat) : PipelineOutput :=
  match normalize raw originHint with
  | .error _ => ⟨.dropped .unrecognizedPayload, [], [], g⟩
  | .ok e0 =>
      let e := withId e0 now
      let checked := g.shouldProcess e.eventId now
      if checked.1 then
        let ms := findMatches store e
        let attempts := ms.map (fun m => dispatch m e)
        let fails := attempts.filter (fun c => !(publish c))
        ⟨.completed ⟨e.eventId, ms.length, attempts.length - fails.length, fails⟩,
          [e], attempts, checked.2⟩
      else
        ⟨.dropped .duplicate, [], [], checked.2⟩

/-- Modelled from the spec: the inbound command-echo handler
`on_command_received` — a message whose `origin` field is `"server"` is
ignored entirely (loop prevention); any other message is treated as a
legacy event and fed through the pipeline. -/
def onCommandReceived (store : List Mapping) (g : Guard) (publish : Command → Bool)
    (p : RawPayload) (now : Nat) : List Event × List Command × Guard :=
  if p.lookup "origin" == some "server" then
    ([], [], g)
  else
    let out := processEvent store g publish p (p.lookup "origin") now
    (out.newEvents, out.published, out.guard)

/-- A transport oracle whose publishes always succeed. -/
def alwaysOk : Command → Bool := fun _ => true

/-- A transport oracle that fails exactly the notification target. -/
def failOnNotify : Command → Bool := fun c => c.targetId != "admin_telegram"

/-- A device-wildcarded notification mapping that also matches `evBaseD`. -/
def mNotify : Mapping :=
  { sourceDevice := "Base_D", sourceButton := "*", sourceAction := "press",
    actionType := "send_alert", targetType := "notification", targetId := "admin_telegram" }

/-- The versioned demo payload: Base_D button S1 press. -/
def demoRaw : RawPayload :=
  [("v", "1.0"), ("device", "Base_D"), ("button", "S1"), ("action", "press")]

/-- A light row as held by the frontend `LightControlSH2` component. -/
structure Light where
  id : Nat
  nome : String
  apelido : Option String := none
  baseId : Nat := 0
  estado : Bool
  invertido : Bool
  deriving Repr, DecidableEq

/-- `getDisplayState` of `LightControlSH2`: handles hardware inversion —
`light.invertido ? !light.estado : light.estado`. -/
def getDisplayState (light : Light) : Bool :=
  if light.invertido then !light.estado else light.estado

/-- `onLights` of `LightControlSH2`: the number of lights shown as on,
`lights.filter(l => getDisplayState(l)).length`. -/
def onLights (lights : List Light) : Nat :=
  (lights.filter (fun l => getDisplayState l)).length

/-- A door row as held by the frontend `DoorControl` component. -/
structure Door where
  id : String
  name : String
  type : String
  area : String
  isOpen : Bool
  isLocked : Bool
  deriving Repr, DecidableEq

/-- `toggleDoor` of `DoorControl` as the transition on the door list: no
change when the door is absent or locked; otherwise `isOpen` is flipped
optimistically, kept when the API call succeeds (`apiOk = true`) and
reset to the captured previous value when it fails. -/
def toggleDoor (doors : List Door) (id : String) (apiOk : Bool) : List Door :=
  match doors.find? (fun d => d.id == id) with
  | none => doors
  | some door =>
      if door.isLocked then doors
      else if apiOk then
        doors.map (fun d => if d.id == id then { d with isOpen := !d.isOpen } else d)
      else
        doors.map (fun d => if d.id == id then { d with isOpen := door.isOpen } else d)

/-- `toggleLock` of `DoorControl` as the transition on the door list: no
change when the door is absent or open; otherwise `isLocked` is flipped
optimistically, kept when the API call succeeds and reset to the captured
previous value when it fails. -/
def toggleLock (doors : List Door) (id : String) (apiOk : Bool) : List Door :=
  match doors.find? (fun d => d.id == id) with
  | none => doors
  | some door =>
      if door.isOpen then doors
      else if apiOk then
        doors.map (fun d => if d.id == id then { d with isLocked := !d.isLocked } else d)
      else
        doors.map (fun d => if d.id == id then { d with isLocked := door.isLocked } else d)

/-- One user interaction with the `DoorControl` component, together with
whether the backing API call succeeded. -/
inductive DoorAction
  | door (id : String) (apiOk : Bool)
  | lock (id : String) (apiOk : Bool)
  deriving Repr, DecidableEq

/-- Apply one `DoorControl` interaction. -/
def applyDoorAction (doors : List Door) : DoorAction → List Door
  | .door id ok => toggleDoor doors id ok
  | .lock id ok => toggleLock doors id ok

/-- Apply a sequence of `DoorControl` interactions, left to right. -/
def applyDoorActions (doors : List Door) (acts : List DoorAction) : List Door :=
  acts.foldl applyDoorAction doors

/-- No door is simultaneously open and locked. -/
def safeDoors (doors : List Door) : Prop :=
  ∀ d ∈ doors, ¬(d.isOpen = true ∧ d.isLocked = true)

instance : DecidablePred safeDoors := fun doors =>
  inferInstanceAs (Decidable (∀ d ∈ doors, ¬(d.isOpen = true ∧ d.isLocked = true)))

/-- The initial door list hard-coded in the `DoorControl` component. -/
def initialDoors : List Door :=
  [⟨"1", "Porta Principal", "door", "Entrada", false, true⟩,
   ⟨"2", "Porta Lateral", "door", "Entrada", false, true⟩,
   ⟨"3", "Porta dos Fundos", "door", "Fundos", false, true⟩,
   ⟨"4", "Porta da Cozinha", "door", "Fundos", false, false⟩,
   ⟨"5", "Porta da Garagem", "door", "Garagem", false, false⟩,
   ⟨"6", "Portão Principal", "gate", "Entrada", false, false⟩,
   ⟨"7", "Portão da Garagem", "gate", "Garagem", false, false⟩,
   ⟨"8", "Portão do Jardim", "gate", "Fundos", false, false⟩]

theorem mappingBefore_total : ∀ a b : Mapping, mappingBefore a b ∨ mappingBefore b a := by
  intro a b
  unfold mappingBefore
  omega

theorem mappingBefore_trans :
    ∀ a b c : Mapping, mappingBefore a b → mappingBefore b c → mappingBefore a c := by
  intro a b c hab hbc
  unfold mappingBefore at hab hbc ⊢
  omega

/-- C1: `findMatches(event)` returns exactly those mappings m with
(m.sourceDevice = event.device or "*") and (m.sourceButton = event.button
or "*") and m.sourceAction = event.action and m.active = true; in
particular no mapping with active = false is ever in the result. -/
theorem claim_C1_findMatches_characterization
    (store : List Mapping) (e : Event) (m : Mapping) :
    m ∈ findMatches store e ↔
      m ∈ store ∧
        ((m.sourceDevice == e.device || m.sourceDevice == "*") &&
         (m.sourceButton == e.button || m.sourceButton == "*") &&
         (m.sourceAction == e.action) &&
         m.active) = true := by
  unfold findMatches
  rw [List.mem_insertionSort, List.mem_filter]
  exact Iff.rfl

/-- C2: the list returned by `findMatches` is sorted ascending by priority
with exact-field matches before wildcard matches at equal priority (device
exactness before button exactness); concretely, with the wildcard mapping
listed first in the store, the exact `Base_D`/`S1` mapping still comes
first in the returned order for an event from `Base_D`/`S1`. -/
theorem claim_C2_findMatches_ordering (store : List Mapping) (e : Event) :
    (findMatches store e).Sorted mappingBefore ∧
      findMatches [mWild, mExact] evBaseD = [mExact, mWild] := by
  constructor
  · haveI : IsTotal Mapping mappingBefore := ⟨mappingBefore_total⟩
    haveI : IsTrans Mapping mappingBefore := ⟨fun a b c => mappingBefore_trans a b c⟩
    exact List.sorted_insertionSort mappingBefore _
  · decide

/-- C4: every Command built by `dispatch` carries `origin = "server"` and
`triggeredBy = triggeringEvent.eventId`, and its payload contains every
key-value pair of the mapping's parameters. -/
theorem claim_C4_dispatch_invariants (m : Mapping) (e : Event) :
    (dispatch m e).origin = "server" ∧
    (dispatch m e).triggeredBy = some e.eventId ∧
    ∀ kv ∈ m.parameters, kv ∈ (dispatch m e).payload := by
  refine ⟨rfl, rfl, fun kv hkv => ?_⟩
  exact List.mem_cons_of_mem _ (List.mem_cons_of_mem _ hkv)

/-- Witness for C4 at the design document's scene mapping: the
`dim_level` parameter reaches the dispatched command's payload. -/
theorem claim_C4_dispatch_witness :
    ("dim_level", "20") ∈ (dispatch mScene evBaseD).payload :=
  (claim_C4_dispatch_invariants mScene evBaseD).2.2 ("dim_level", "20") (by decide)

/-- C5: `shouldProcess(eventId, now)` returns true exactly when the id is
absent from the cache or its recorded time is older than the window; on
true it records `(eventId, now)`, on false the guard is unchanged. -/
theorem claim_C5_shouldProcess (g : Guard) (eventId : String) (now : Nat) :
    ((g.shouldProcess eventId now).1 = true ↔
      (g.cache.lookup eventId = none ∨
        ∃ t, g.cache.lookup eventId = some t ∧ t + g.window < now)) ∧
    ((g.shouldProcess eventId now).1 = true →
      ((g.shouldProcess eventId now).2).cache.lookup eventId = some now) ∧
    ((g.shouldProcess eventId now).1 = false → (g.shouldProcess eventId now).2 = g) := by
  cases h : g.cache.lookup eventId with
  | none =>
      refine ⟨?_, ?_, ?_⟩ <;> simp [Guard.shouldProcess, h, List.lookup]
  | some t =>
      by_cases ht : t + g.window < now
      · refine ⟨?_, ?_, ?_⟩ <;> simp [Guard.shouldProcess, h, ht, List.lookup]
      · refine ⟨?_, ?_, ?_⟩ <;> simp [Guard.shouldProcess, h, ht, List.lookup]

/-- Witness for C5: on a fresh guard an id is processed and recorded. -/
theorem claim_C5_shouldProcess_witness :
    (Guard.shouldProcess {} "Base_D_S1_press_0" 5).1 = true ∧
    ((Guard.shouldProcess {} "Base_D_S1_press_0" 5).2).cache.lookup "Base_D_S1_press_0" =
      some 5 :=
  ⟨(claim_C5_shouldProcess {} "Base_D_S1_press_0" 5).1.mpr (Or.inl (by decide)),
   (claim_C5_shouldProcess {} "Base_D_S1_press_0" 5).2.1 (by decide)⟩

/-- C7: a payload without a recognized version field but with bare
`comodo`/`state` identity fields normalizes to an Event with
`action = "state-report"` and device derived from `comodo` (never
`unrecognizedPayload`); normalization fails with `unrecognizedPayload`
exactly when neither the versioned nor the legacy shape matches. -/
theorem claim_C7_normalize_legacy (p : RawPayload) (hint : Option String) :
    (recognizedVersion p = false →
      ∀ room st, p.lookup "comodo" = some room → p.lookup "state" = some st →
        normalize p hint =
          .ok { version := "legacy", device := deviceFromComodo room, button := "",
                action := "state-report", origin := hint.getD "legacy" }) ∧
    (normalize p hint = .error .unrecognizedPayload ↔
      versionedShape p = false ∧ legacyShape p = false) := by
  constructor
  · intro hv room st hroom hst
    simp [normalize, hv, hroom, hst]
  · unfold normalize versionedShape legacyShape
    by_cases hv : recognizedVersion p
    · cases hd : p.lookup "device" <;> cases ha : p.lookup "action" <;>
        simp [hv, hd, ha]
    · cases hc : p.lookup "comodo" <;> cases hs : p.lookup "state" <;>
        simp [hv, hc, hs]

/-- Witness for C7 at the legacy demo payload of the spec. -/
theorem claim_C7_normalize_witness :
    normalize [("comodo", "L_Cozinha"), ("state", "ON")] none =
      .ok { version := "legacy", device := "L_Cozinha", button := "",
            action := "state-report", origin := "legacy" } :=
  (claim_C7_normalize_legacy [("comodo", "L_Cozinha"), ("state", "ON")] none).1
    (by decide) "L_Cozinha" "ON" (by decide) (by decide)

/-- C3: an inbound command-echo message whose `origin` field equals
`"server"` never produces a new Event and never publishes a new Command
(the guard is not even touched). -/
theorem claim_C3_loop_prevention (store : List Mapping) (g : Guard)
    (publish : Command → Bool) (p : RawPayload) (now : Nat)
    (h : p.lookup "origin" = some "server") :
    onCommandReceived store g publish p now = ([], [], g) := by
  simp [onCommandReceived, h]

/-- Witness for C3: a server-origin echo of a command payload is ignored. -/
theorem claim_C3_loop_prevention_witness :
    onCommandReceived [mExact] {} alwaysOk
      [("origin", "server"), ("comodo", "L_Cozinha"), ("command", "toggle")] 0 =
      ([], [], {}) :=
  claim_C3_loop_prevention [mExact] {} alwaysOk
    [("origin", "server"), ("comodo", "L_Cozinha"), ("command", "toggle")] 0 rfl

/-- C8: when the event normalizes and passes the idempotency check, the
pipeline attempts exactly one dispatch per matched mapping, in the
resolved order, independently of which publishes fail; every failed
attempt is surfaced in the returned result's failures list, and the
dispatched count is the matched count minus the failures. -/
theorem claim_C8_multi_match_fanout (store : List Mapping) (g : Guard)
    (publish : Command → Bool) (raw : RawPayload) (hint : Option String)
    (now : Nat) (e0 : Event)
    (hn : normalize raw hint = .ok e0)
    (hp : (g.shouldProcess (deriveEventId e0 now) now).1 = true) :
    (processEvent store g publish raw hint now).published =
      (findMatches store (withId e0 now)).map (fun m => dispatch m (withId e0 now)) ∧
    ∃ r, (processEvent store g publish raw hint now).outcome = Outcome.completed r ∧
      r.matchedCount = (findMatches store (withId e0 now)).length ∧
      r.failures = ((findMatches store (withId e0 now)).map
        (fun m => dispatch m (withId e0 now))).filter (fun c => !(publish c)) ∧
      r.dispatchedCount = r.matchedCount - r.failures.length := by
  have hid : (withId e0 now).eventId = deriveEventId e0 now := rfl
  have hrun : processEvent store g publish raw hint now =
      ⟨.completed ⟨deriveEventId e0 now,
          (findMatches store (withId e0 now)).length,
          ((findMatches store (withId e0 now)).map (fun m => dispatch m (withId e0 now))).length -
            (((findMatches store (withId e0 now)).map (fun m => dispatch m (withId e0 now))).filter
              (fun c => !(publish c))).length,
          ((findMatches store (withId e0 now)).map (fun m => dispatch m (withId e0 now))).filter
            (fun c => !(publish c))⟩,
        [withId e0 now],
        (findMatches store (withId e0 now)).map (fun m => dispatch m (withId e0 now)),
        (g.shouldProcess (deriveEventId e0 now) now).2⟩ := by
    simp [processEvent, hn, hid, hp]
  rw [hrun]
  refine ⟨rfl, _, rfl, rfl, rfl, ?_⟩
  simp [List.length_map]

/-- Witness for C8: the Base_D/S1 press matches three active mappings; the
notification publish fails, the other two dispatches still happen and the
failure is listed. -/
theorem claim_C8_multi_match_fanout_witness :
    (processEvent [mWild, mExact, mNotify] {} failOnNotify demoRaw none 0).published =
      (findMatches [mWild, mExact, mNotify] (withId evBaseD 0)).map
        (fun m => dispatch m (withId evBaseD 0)) :=
  (claim_C8_multi_match_fanout [mWild, mExact, mNotify] {} failOnNotify demoRaw none 0 evBaseD
    rfl (by decide)).1

/-- Counterexample to C6 as stated: two presses of the same device,
button and action only one second apart (well within the 3-second dedup
window) straddle a coarse time bucket boundary, derive different event
ids, and therefore BOTH complete the pipeline; neither call ends in
Dropped(Duplicate). -/
theorem claim_C6_counterexample :
    60 - 59 ≤ ({} : Guard).window ∧
    (processEvent [mExact] {} alwaysOk demoRaw none 59).outcome ≠
      Outcome.dropped DropReason.duplicate ∧
    (processEvent [mExact] (processEvent [mExact] {} alwaysOk demoRaw none 59).guard
        alwaysOk demoRaw none 60).outcome ≠
      Outcome.dropped DropReason.duplicate := by
  refine ⟨by decide, by decide, by decide⟩

/-- C6 amended: for two `processEvent` calls on events with identical
(device, button, action) arriving within the dedup window AND within the
same coarse time bucket (so that they derive the same eventId), with the
id fresh in the guard beforehand, the earlier call completes the pipeline
and the later call ends in Dropped(Duplicate), regardless of which of the
two timestamps comes first. -/
theorem claim_C6_idempotent_pair (store : List Mapping) (g : Guard)
    (publish : Command → Bool) (raw : RawPayload) (hint : Option String)
    (t1 t2 : Nat) (e0 : Event)
    (hn : normalize raw hint = .ok e0)
    (_h12 : t1 ≤ t2) (hwin : t2 ≤ t1 + g.window)
    (hbucket : t1 / bucketSeconds = t2 / bucketSeconds)
    (hfresh : g.cache.lookup (deriveEventId e0 t1) = none) :
    (∃ r, (processEvent store g publish raw hint t1).outcome = Outcome.completed r) ∧
    (processEvent store (processEvent store g publish raw hint t1).guard
        publish raw hint t2).outcome = Outcome.dropped DropReason.duplicate := by
  have hid : deriveEventId e0 t2 = deriveEventId e0 t1 := by
    unfold deriveEventId
    rw [hbucket]
  have h1 : g.shouldProcess (deriveEventId e0 t1) t1 =
      (true, { g with cache := (deriveEventId e0 t1, t1) :: g.cache }) := by
    simp [Guard.shouldProcess, hfresh]
  have hwid : (withId e0 t1).eventId = deriveEventId e0 t1 := rfl
  have hwid2 : (withId e0 t2).eventId = deriveEventId e0 t2 := rfl
  have hg1 : (processEvent store g publish raw hint t1).guard =
      { g with cache := (deriveEventId e0 t1, t1) :: g.cache } := by
    simp [processEvent, hn, hwid, h1]
  have hnotlt : ¬(t1 + g.window < t2) := by omega
  constructor
  · have ho : (processEvent store g publish raw hint t1).outcome =
        Outcome.completed ⟨deriveEventId e0 t1,
          (findMatches store (withId e0 t1)).length,
          ((findMatches store (withId e0 t1)).map (fun m => dispatch m (withId e0 t1))).length -
            (((findMatches store (withId e0 t1)).map (fun m => dispatch m (withId e0 t1))).filter
              (fun c => !(publish c))).length,
          ((findMatches store (withId e0 t1)).map (fun m => dispatch m (withId e0 t1))).filter
            (fun c => !(publish c))⟩ := by
      simp [processEvent, hn, hwid, h1]
    exact ⟨_, ho⟩
  · rw [hg1]
    have h2 : Guard.shouldProcess { g with cache := (deriveEventId e0 t1, t1) :: g.cache }
        (deriveEventId e0 t2) t2 =
        (false, { g with cache := (deriveEventId e0 t1, t1) :: g.cache }) := by
      simp [Guard.shouldProcess, hid, List.lookup, hnotlt]
    simp [processEvent, hn, hwid2, h2]

/-- Witness for the amended C6: the Base_D/S1 press at seconds 10 and 12
(same minute bucket, 2 seconds apart) is processed once and dropped as a
duplicate the second time. -/
theorem claim_C6_idempotent_pair_witness :
    (∃ r, (processEvent [mExact] {} alwaysOk demoRaw none 10).outcome =
      Outcome.completed r) ∧
    (processEvent [mExact] (processEvent [mExact] {} alwaysOk demoRaw none 10).guard
        alwaysOk demoRaw none 12).outcome = Outcome.dropped DropReason.duplicate :=
  claim_C6_idempotent_pair [mExact] {} alwaysOk demoRaw none 10 12 evBaseD
    rfl (by decide) (by decide) (by decide) (by decide)

/-- C9: the display state is `estado` negated exactly when `invertido`
(i.e. estado XOR invertido), and the reported on-count equals the number
of lights whose display state is true. -/
theorem claim_C9_light_display_state (light : Light) (lights : List Light) :
    getDisplayState light = Bool.xor light.estado light.invertido ∧
    onLights lights = lights.countP (fun l => getDisplayState l) := by
  constructor
  · unfold getDisplayState
    cases light.invertido <;> cases light.estado <;> rfl
  · unfold onLights
    rw [List.countP_eq_length_filter]

theorem find_unique_of_nodup {doors : List Door} {id : String} {door d : Door}
    (hnd : (doors.map (fun x => x.id)).Nodup)
    (hfind : doors.find? (fun x => x.id == id) = some door)
    (hd : d ∈ doors) (hid : (d.id == id) = true) : d = door := by
  have hmem : door ∈ doors := List.mem_of_find?_eq_some hfind
  have hdid := List.find?_some hfind
  have heq : d.id = door.id := by
    have h1 : d.id = id := eq_of_beq hid
    have h2 : door.id = id := eq_of_beq hdid
    rw [h1, h2]
  exact List.inj_on_of_nodup_map hnd hd hmem heq

theorem ids_map_update_open (doors : List Door) (id : String) (f : Door → Bool) :
    ((doors.map (fun d => if d.id == id then { d with isOpen := f d } else d)).map
      (fun d => d.id)) = doors.map (fun d => d.id) := by
  rw [List.map_map]
  refine List.map_congr_left fun d _ => ?_
  show (if d.id == id then { d with isOpen := f d } else d).id = d.id
  split <;> rfl

theorem ids_map_update_lock (doors : List Door) (id : String) (f : Door → Bool) :
    ((doors.map (fun d => if d.id == id then { d with isLocked := f d } else d)).map
      (fun d => d.id)) = doors.map (fun d => d.id) := by
  rw [List.map_map]
  refine List.map_congr_left fun d _ => ?_
  show (if d.id == id then { d with isLocked := f d } else d).id = d.id
  split <;> rfl

theorem safe_map_update_open {doors : List Door} {id : String} {door : Door}
    (f : Door → Bool)
    (hnd : (doors.map (fun x => x.id)).Nodup)
    (hfind : doors.find? (fun x => x.id == id) = some door)
    (hlock : door.isLocked = false)
    (hs : safeDoors doors) :
    safeDoors (doors.map (fun d => if d.id == id then { d with isOpen := f d } else d)) := by
  intro d hd
  rw [List.mem_map] at hd
  obtain ⟨a, ha, rfl⟩ := hd
  by_cases hid : (a.id == id) = true
  · have haeq : a = door := find_unique_of_nodup hnd hfind ha hid
    subst haeq
    simp [hid, hlock]
  · simp only [hid, if_false]
    exact hs a ha

theorem safe_map_update_lock {doors : List Door} {id : String} {door : Door}
    (f : Door → Bool)
    (hnd : (doors.map (fun x => x.id)).Nodup)
    (hfind : doors.find? (fun x => x.id == id) = some door)
    (hopen : door.isOpen = false)
    (hs : safeDoors doors) :
    safeDoors (doors.map (fun d => if d.id == id then { d with isLocked := f d } else d)) := by
  intro d hd
  rw [List.mem_map] at hd
  obtain ⟨a, ha, rfl⟩ := hd
  by_cases hid : (a.id == id) = true
  · have haeq : a = door := find_unique_of_nodup hnd hfind ha hid
    subst haeq
    simp [hid, hopen]
  · simp only [hid, if_false]
    exact hs a ha

theorem toggleDoor_safe {doors : List Door} {id : String} {ok : Bool}
    (hnd : (doors.map (fun x => x.id)).Nodup) (hs : safeDoors doors) :
    safeDoors (toggleDoor doors id ok) := by
  unfold toggleDoor
  cases hfind : doors.find? (fun d => d.id == id) with
  | none => exact hs
  | some door =>
      by_cases hlock : door.isLocked = true
      · simpa [hlock] using hs
      · have hlock' : door.isLocked = false := Bool.eq_false_iff.mpr hlock
        cases ok with
        | true =>
            simpa [hlock'] using safe_map_update_open (fun d => !d.isOpen) hnd hfind hlock' hs
        | false =>
            simpa [hlock'] using safe_map_update_open (fun _ => door.isOpen) hnd hfind hlock' hs

theorem toggleLock_safe {doors : List Door} {id : String} {ok : Bool}
    (hnd : (doors.map (fun x => x.id)).Nodup) (hs : safeDoors doors) :
    safeDoors (toggleLock doors id ok) := by
  unfold toggleLock
  cases hfind : doors.find? (fun d => d.id == id) with
  | none => exact hs
  | some door =>
      by_cases hopen : door.isOpen = true
      · simpa [hopen] using hs
      · have hopen' : door.isOpen = false := Bool.eq_false_iff.mpr hopen
        cases ok with
        | true =>
            simpa [hopen'] using safe_map_update_lock (fun d => !d.isLocked) hnd hfind hopen' hs
        | false =>
            simpa [hopen'] using safe_map_update_lock (fun _ => door.isLocked) hnd hfind hopen' hs

theorem toggleDoor_ids (doors : List Door) (id : String) (ok : Bool) :
    (toggleDoor doors id ok).map (fun d => d.id) = doors.map (fun d => d.id) := by
  unfold toggleDoor
  cases hfind : doors.find? (fun d => d.id == id) with
  | none => rfl
  | some door =>
      by_cases hlock : door.isLocked = true
      · simp [hlock]
      · have hlock' : door.isLocked = false := Bool.eq_false_iff.mpr hlock
        cases ok with
        | true => simpa [hlock'] using ids_map_update_open doors id (fun d => !d.isOpen)
        | false => simpa [hlock'] using ids_map_update_open doors id (fun _ => door.isOpen)

theorem toggleLock_ids (doors : List Door) (id : String) (ok : Bool) :
    (toggleLock doors id ok).map (fun d => d.id) = doors.map (fun d => d.id) := by
  unfold toggleLock
  cases hfind : doors.find? (fun d => d.id == id) with
  | none => rfl
  | some door =>
      by_cases hopen : door.isOpen = true
      · simp [hopen]
      · have hopen' : door.isOpen = false := Bool.eq_false_iff.mpr hopen
        cases ok with
        | true => simpa [hopen'] using ids_map_update_lock doors id (fun d => !d.isLocked)
        | false => simpa [hopen'] using ids_map_update_lock doors id (fun _ => door.isLocked)

theorem applyDoorActions_safe (acts : List DoorAction) :
    ∀ doors : List Door, (doors.map (fun d => d.id)).Nodup → safeDoors doors →
      safeDoors (applyDoorActions doors acts) := by
  induction acts with
  | nil => exact fun _ _ hs => hs
  | cons a rest ih =>
      intro doors hnd hs
      have hsafe : safeDoors (applyDoorAction doors a) := by
        cases a with
        | door id ok => exact toggleDoor_safe hnd hs
        | lock id ok => exact toggleLock_safe hnd hs
      have hids : (applyDoorAction doors a).map (fun d => d.id) =
          doors.map (fun d => d.id) := by
        cases a with
        | door id ok => exact toggleDoor_ids doors id ok
        | lock id ok => exact toggleLock_ids doors id ok
      exact ih (applyDoorAction doors a) (hids ▸ hnd) hsafe

/-- C10: `toggleDoor` leaves the door list unchanged when the targeted
door is locked, `toggleLock` leaves it unchanged when the targeted door
is open, and consequently (for distinct door ids) no sequence of the two
interactions ever makes a door simultaneously open and locked, starting
from a state with no such door. -/
theorem claim_C10_door_lock_interlock :
    (∀ (doors : List Door) (id : String) (ok : Bool) (door : Door),
        doors.find? (fun d => d.id == id) = some door → door.isLocked = true →
          toggleDoor doors id ok = doors) ∧
    (∀ (doors : List Door) (id : String) (ok : Bool) (door : Door),
        doors.find? (fun d => d.id == id) = some door → door.isOpen = true →
          toggleLock doors id ok = doors) ∧
    (∀ (doors : List Door) (acts : List DoorAction),
        (doors.map (fun d => d.id)).Nodup → safeDoors doors →
          safeDoors (applyDoorActions doors acts)) := by
  refine ⟨?_, ?_, ?_⟩
  · intro doors id ok door hfind hlock
    unfold toggleDoor
    rw [hfind]
    simp [hlock]
  · intro doors id ok door hfind hopen
    unfold toggleLock
    rw [hfind]
    simp [hopen]
  · exact fun doors acts hnd hs => applyDoorActions_safe acts doors hnd hs

/-- Witness for C10 on the component's hard-coded initial door list: the
locked Porta Principal cannot be opened, the open Portão Principal cannot
be locked, and a mixed interaction sequence keeps every door safe. -/
theorem claim_C10_door_lock_interlock_witness :
    toggleDoor initialDoors "1" true = initialDoors ∧
    toggleLock (toggleDoor initialDoors "6" true) "6" true =
      toggleDoor initialDoors "6" true ∧
    safeDoors (applyDoorActions initialDoors
      [DoorAction.lock "4" true, DoorAction.door "6" true, DoorAction.door "6" false]) :=
  ⟨claim_C10_door_lock_interlock.1 initialDoors "1" true
      ⟨"1", "Porta Principal", "door", "Entrada", false, true⟩ (by decide) (by decide),
   claim_C10_door_lock_interlock.2.1 (toggleDoor initialDoors "6" true) "6" true
      ⟨"6", "Portão Principal", "gate", "Entrada", true, false⟩ (by decide) (by decide),
   claim_C10_door_lock_interlock.2.2 initialDoors
      [DoorAction.lock "4" true, DoorAction.door "6" true, DoorAction.door "6" false]
      (by decide) (by decide)⟩

end SmartHeaven
